import Mathlib

/-!
Verification of the LaunchPad process supervisor (src/launchpad.py).

The development shallowly embeds the process-supervision core of the
`StackController` class: the process table, `_spawn`, `_terminate`, the
health-monitor tick of `_start_monitoring`, `_restart_proc`,
`_prompt_kill_pids`, `_http_ok`, and the orchestration start/stop key
orders of `start_all` / `stop_all`.

OS-level side effects are represented explicitly: an OS process is a pid
paired with the result its `poll()` call would currently return
(`none` while the process runs, `some rc` once it has exited with code
`rc`); the outcome of a `subprocess.Popen` call is a `LaunchResult`;
dialog and callback behaviour is passed in as data.
-/

namespace LaunchPad

/-- The `ProcessStatus` enum of launchpad.py. -/
inductive ProcessStatus where
  | stopped
  | starting
  | running
  | failed
deriving Repr, DecidableEq

/-- Snapshot of an OS process handle (`subprocess.Popen` object): its pid and
the value `poll()` currently returns (`none` = still running,
`some rc` = exited with return code `rc`). -/
structure OSProc where
  pid : Nat
  poll : Option Int
deriving Repr, DecidableEq

/-- The `Proc` class of launchpad.py: per-service record held by the
supervisor.  `p` is the OS process reference (`None` until a launch
succeeded), mirroring `Proc.__init__`. -/
structure Proc where
  name : String
  autoRestart : Bool := false
  p : Option OSProc := none
  status : ProcessStatus := ProcessStatus.stopped
  restartCount : Nat := 0
  lastError : Option String := none
deriving Repr, DecidableEq

/-- The supervisor's tracked process table `self.procs` (key -> Proc). -/
abbrev Table := List (String × Proc)

/-- `self.procs.get(key)` — dictionary lookup. -/
def tblGet : Table → String → Option Proc
  | [], _ => none
  | (k2, v) :: rest, k => if k == k2 then some v else tblGet rest k

/-- `self.procs[key] = proc` — dictionary assignment (replaces any previous
binding of the key). -/
def tblSet (t : Table) (k : String) (v : Proc) : Table :=
  (k, v) :: List.filter (fun e => !(e.1 == k)) t

/-- `self.procs.pop(key, None)` — dictionary removal. -/
def tblErase (t : Table) (k : String) : Table :=
  List.filter (fun e => !(e.1 == k)) t

/-- The liveness test of `_spawn`'s idempotence guard:
`self.procs[key].p and self.procs[key].p.poll() is None`. -/
def procLive (h : Proc) : Bool :=
  match h.p with
  | some os => os.poll == none
  | none => false

/-- Outcome of the `subprocess.Popen` call inside `_spawn`: success with an
OS process, a raised `FileNotFoundError` (the only exception `_spawn`
catches), or any other raised exception (e.g. `PermissionError`). -/
inductive LaunchResult where
  | ok (os : OSProc)
  | fileNotFound (msg : String)
  | otherError (msg : String)
deriving Repr, DecidableEq

/-- Everything observable about one `_spawn` call: the table afterwards, the
final state of the `Proc` object passed in, the log lines written, whether an
OS process was launched, and the exception propagated to the caller, if any. -/
structure SpawnOut where
  table : Table
  handle : Proc
  logs : List String
  launched : Bool
  raised : Option String
deriving Repr, DecidableEq

/-- `StackController._spawn` (launchpad.py lines 515-564).
If the tracked handle for the key holds a live OS process, it logs
"already running" and returns with no mutation.  Otherwise it marks the new
`Proc` as starting and launches: on success it records the OS process, marks
it running and stores it in the table; on `FileNotFoundError` it marks the
handle failed, records the error and returns normally; any other exception
escapes the `try` block and propagates. -/
def spawn (t : Table) (key : String) (proc : Proc) (launch : LaunchResult) : SpawnOut :=
  if (tblGet t key).elim false procLive then
    { table := t
      handle := proc
      logs := [proc.name ++ " already running."]
      launched := false
      raised := none }
  else
    let proc1 : Proc := { proc with status := ProcessStatus.starting }
    match launch with
    | LaunchResult.ok os =>
        let proc2 : Proc := { proc1 with p := some os, status := ProcessStatus.running }
        { table := tblSet t key proc2
          handle := proc2
          logs := ["Starting " ++ proc.name, proc.name ++ " started successfully"]
          launched := true
          raised := none }
    | LaunchResult.fileNotFound m =>
        { table := t
          handle := { proc1 with status := ProcessStatus.failed, lastError := some m }
          logs := ["Starting " ++ proc.name, "ERROR: " ++ proc.name ++ " not found: " ++ m]
          launched := false
          raised := none }
    | LaunchResult.otherError m =>
        { table := t
          handle := proc1
          logs := ["Starting " ++ proc.name]
          launched := false
          raised := some m }

/-- `StackController._http_ok` (lines 600-610), abstracted over the HTTP
exchange: `none` means the request raised (connection refused, parse error,
timeout), `some s` means a response with status code `s` was obtained.  The
source returns `200 <= resp.status < 500` and `False` on any exception. -/
def http_ok (resp : Option Nat) : Bool :=
  match resp with
  | some status => decide (200 ≤ status) && decide (status < 500)
  | none => false

/-- Result of the health monitor's per-service body: the (possibly mutated)
handle, whether a delayed auto-restart was scheduled (`threading.Timer(2.0,
lambda: self._restart_proc(key))`), and whether a crash was detected. -/
structure MonitorStepOut where
  proc : Proc
  restartScheduled : Bool
  crashed : Bool
deriving Repr, DecidableEq

/-- One service's share of a health-monitor tick
(`StackController._start_monitoring`, lines 362-375): if the OS process has
exited while the recorded status is RUNNING, mark the handle failed, record
the exit code, and — when auto-restart is enabled and `restart_count < 3` —
increment the count and schedule a delayed `_restart_proc`. -/
def monitorStep (proc : Proc) : MonitorStepOut :=
  match proc.p with
  | some os =>
    match os.poll with
    | some rc =>
      if proc.status == ProcessStatus.running then
        let p1 : Proc := { proc with
          status := ProcessStatus.failed
          lastError := some ("Exited with code " ++ toString rc) }
        if proc.autoRestart && decide (proc.restartCount < 3) then
          { proc := { p1 with restartCount := p1.restartCount + 1 }
            restartScheduled := true
            crashed := true }
        else
          { proc := p1, restartScheduled := false, crashed := true }
      else
        { proc := proc, restartScheduled := false, crashed := false }
    | none => { proc := proc, restartScheduled := false, crashed := false }
  | none => { proc := proc, restartScheduled := false, crashed := false }

/-- One full monitor tick over `list(self.procs.items())`, with the
possibility that a callback raised while a given service was being handled
(`raises k = true` means the notify/status callback for key `k` threw).  The
loop body has no try/except, so an exception leaves the already-processed
prefix mutated and aborts the iteration.  Returns the table afterwards, the
keys whose check body ran, and the key whose processing raised, if any. -/
def monitorTickGo : List (String × Proc) → (String → Bool) → Table × List String × Option String
  | [], _ => ([], [], none)
  | (k, h) :: rest, raises =>
    let h2 := (monitorStep h).proc
    if raises k then
      ((k, h2) :: rest, [k], some k)
    else
      let r := monitorTickGo rest raises
      ((k, h2) :: r.1, k :: r.2.1, r.2.2)

/-- A monitor tick in which no callback raises (the table update alone). -/
def monitorTickTable (t : Table) : Table :=
  List.map (fun e => (e.1, (monitorStep e.2).proc)) t

/-- The OS: the process tracked under `key` exits with code `rc`, so
`poll()` starts returning `rc` for it. -/
def osExit (h : Proc) (rc : Int) : Proc :=
  { h with p := h.p.map (fun os => { os with poll := some rc }) }

/-- `osExit` applied to one table entry. -/
def osExitTable (t : Table) (key : String) (rc : Int) : Table :=
  List.map (fun e => if e.1 == key then (e.1, osExit e.2 rc) else e) t

/-- The `Proc` built by `start_daphne` (line 657): fresh object, so
`restart_count = 0` by `Proc.__init__`, with `auto_restart=True`. -/
def mkDaphneProc : Proc :=
  { name := "daphne", autoRestart := true }

/-- The `Proc` built by `start_celery_beat` (line 695). -/
def mkCeleryBeatProc : Proc :=
  { name := "celery-beat", autoRestart := true }

/-- The `Proc` built by `start_celery_worker` (line 712). -/
def mkCeleryWorkerProc : Proc :=
  { name := "celery-worker", autoRestart := true }

/-- The `Proc` built by `start_frontend` (line 749). -/
def mkFrontendProc : Proc :=
  { name := "frontend", autoRestart := true }

/-- `StackController._restart_proc` (lines 384-399): if the key is still
tracked, re-invoke the per-service start routine, which constructs a fresh
`Proc` and calls `_spawn` with it.  `launch` is the outcome of that spawn's
`Popen`. -/
def restartProc (t : Table) (key : String) (launch : LaunchResult) : Table :=
  match tblGet t key with
  | none => t
  | some _ =>
    if key == "daphne" then (spawn t key mkDaphneProc launch).table
    else if key == "celery_beat" then (spawn t key mkCeleryBeatProc launch).table
    else if key == "celery_worker" then (spawn t key mkCeleryWorkerProc launch).table
    else if key == "frontend" then (spawn t key mkFrontendProc launch).table
    else t

/-- Has the process exited by poll-check number `i`?  `exitTime` is the
check index from which `poll()` returns non-None (`none` = the process
never exits on its own). -/
def exitedAt (exitTime : Option Nat) (i : Nat) : Bool :=
  match exitTime with
  | none => false
  | some tE => decide (tE ≤ i)

/-- The bounded wait loop of `_terminate`
(`for _ in range(20): if poll() is not None: break; time.sleep(0.2)`),
starting at poll-check index `i` with `fuel` iterations left.  Returns the
number of `sleep(0.2)` calls executed and the next poll-check index. -/
def termLoop : Nat → Nat → Option Nat → Nat × Nat
  | 0, i, _ => (0, i)
  | Nat.succ fuel, i, et =>
    if exitedAt et i then (0, i)
    else
      let r := termLoop fuel (i + 1) et
      (r.1 + 1, r.2)

/-- Everything observable about one `_terminate` call: the table afterwards,
the status last written to the handle (`none` when the early return fired
before any write), whether `terminate()` (the graceful signal) was sent, how
many 0.2-second sleeps ran, and whether `kill()` was issued. -/
structure TerminateOut where
  table : Table
  finalStatus : Option ProcessStatus
  signaled : Bool
  sleeps : Nat
  killed : Bool
deriving Repr, DecidableEq

/-- `StackController._terminate` (lines 566-591).  Untracked key, or a
tracked handle with no OS process reference: early return, nothing changes.
Otherwise: if the process is still alive, send `terminate()`, poll at
0.2-second intervals at most 20 times, and `kill()` if it is still alive
after the loop; in every case the handle is then marked STOPPED and the key
popped from the table. -/
def terminate (t : Table) (key : String) (exitTime : Option Nat) : TerminateOut :=
  match tblGet t key with
  | none =>
    { table := t, finalStatus := none, signaled := false, sleeps := 0, killed := false }
  | some proc =>
    match proc.p with
    | none =>
      { table := t, finalStatus := none, signaled := false, sleeps := 0, killed := false }
    | some _ =>
      if exitedAt exitTime 0 then
        { table := tblErase t key
          finalStatus := some ProcessStatus.stopped
          signaled := false
          sleeps := 0
          killed := false }
      else
        let r := termLoop 20 1 exitTime
        { table := tblErase t key
          finalStatus := some ProcessStatus.stopped
          signaled := true
          sleeps := r.1
          killed := !(exitedAt exitTime r.2) }

/-- Environment of `_prompt_kill_pids`: whether `tk._get_default_root()`
produced a root window, and the result of `messagebox.askyesno` when one is
shown (`none` = the call raised; the except clause turns that into `False`). -/
structure PromptEnv where
  rootAvailable : Bool
  dialogAnswer : Option Bool
deriving Repr, DecidableEq

/-- Everything observable about one `_prompt_kill_pids` call: the pids that
stop/kill signals were sent to, whether the conflict message was written to
the log (the headless branch), and the boolean the function returned. -/
structure PromptOut where
  killedPids : List Nat
  conflictLogged : Bool
  returned : Bool
deriving Repr, DecidableEq

/-- `StackController._prompt_kill_pids` (lines 441-488).  Empty pid list:
return False at once.  With a root window, ask the user (an exception in the
dialog counts as "no"); without one, log the conflict message and take the
answer to be "no".  Only on an explicit yes are the listed pids signalled
(terminate, bounded wait, then kill). -/
def promptKillPids (env : PromptEnv) (pids : List (Nat × String × String)) : PromptOut :=
  if pids.isEmpty then
    { killedPids := [], conflictLogged := false, returned := false }
  else
    let answer : Bool :=
      if env.rootAvailable then env.dialogAnswer.getD false
      else false
    let logged : Bool := !env.rootAvailable
    if answer then
      { killedPids := List.map (fun e => e.1) pids
        conflictLogged := logged
        returned := true }
    else
      { killedPids := [], conflictLogged := logged, returned := false }

/-- The order in which `start_all` (lines 776-778) initiates the pipeline
stages: `start_backend` runs `ensure_redis`, then the migrate step, then
timers at 1.0s/1.5s/2.0s for daphne, celery beat and celery worker, and
`start_all` adds a 3.0s timer for the frontend. -/
def startAllOrder : List String :=
  ["redis_docker", "migrate", "daphne", "celery_beat", "celery_worker", "frontend"]

/-- The order in which `stop_all` (line 783) terminates the tracked keys. -/
def stopAllOrder : List String :=
  ["frontend", "celery_worker", "celery_beat", "daphne", "redis_docker", "migrate"]

/-- One crash/auto-restart round for the daphne service: the OS process
exits with code `rc`, the next monitor tick observes it, and — when the tick
scheduled a restart — the delayed `_restart_proc("daphne")` fires and its
`start_daphne` spawn succeeds with a fresh OS process `newPid`.  Returns the
resulting table and whether this round issued an automatic respawn. -/
def daphneCrashCycle (t : Table) (rc : Int) (newPid : Nat) : Table × Bool :=
  let t0 := osExitTable t "daphne" rc
  match tblGet t0 "daphne" with
  | none => (t0, false)
  | some h =>
    let out := monitorStep h
    let t1 := tblSet t0 "daphne" out.proc
    if out.restartScheduled then
      (restartProc t1 "daphne" (LaunchResult.ok { pid := newPid, poll := none }), true)
    else (t1, false)

/-- Table after an operator-initiated daphne start that succeeded. -/
def daphneAfterStart : Table :=
  (spawn [] "daphne" mkDaphneProc (LaunchResult.ok { pid := 1, poll := none })).table

/-- First crash of a daphne service that exits immediately after each start. -/
def c1Cycle1 : Table × Bool := daphneCrashCycle daphneAfterStart 1 2

/-- Second crash of the immediately-exiting daphne service. -/
def c1Cycle2 : Table × Bool := daphneCrashCycle c1Cycle1.1 1 3

/-- Third crash of the immediately-exiting daphne service. -/
def c1Cycle3 : Table × Bool := daphneCrashCycle c1Cycle2.1 1 4

/-- Fourth crash of the immediately-exiting daphne service. -/
def c1Cycle4 : Table × Bool := daphneCrashCycle c1Cycle3.1 1 5

/-- A tracked daphne handle holding a live OS process. -/
def runningDaphne : Proc :=
  { name := "daphne"
    autoRestart := true
    p := some { pid := 1, poll := none }
    status := ProcessStatus.running }

/-- A tracked frontend handle holding a live OS process. -/
def runningFrontend : Proc :=
  { name := "frontend"
    autoRestart := true
    p := some { pid := 2, poll := none }
    status := ProcessStatus.running }

/-- A tracked daphne handle whose OS process has just exited with code 1. -/
def crashedDaphne : Proc :=
  { name := "daphne"
    autoRestart := true
    p := some { pid := 1, poll := some 1 }
    status := ProcessStatus.running }

/-- Invariant of the tracked table: every stored handle has a non-null OS
process reference. -/
def tableInv (t : Table) : Prop :=
  ∀ e ∈ t, e.2.p.isSome = true

/-- Tables reachable from the empty initial table through the supervisor's
operations: `_spawn`, `_terminate`, a monitor tick, an OS-side process exit,
and `_restart_proc`. -/
inductive Reachable : Table → Prop where
  | init : Reachable []
  | spawnStep (t : Table) (k : String) (p : Proc) (l : LaunchResult) :
      Reachable t → Reachable (spawn t k p l).table
  | terminateStep (t : Table) (k : String) (et : Option Nat) :
      Reachable t → Reachable (terminate t k et).table
  | tickStep (t : Table) : Reachable t → Reachable (monitorTickTable t)
  | osStep (t : Table) (k : String) (rc : Int) :
      Reachable t → Reachable (osExitTable t k rc)
  | restartStep (t : Table) (k : String) (l : LaunchResult) :
      Reachable t → Reachable (restartProc t k l)

/-- The monitor's per-service body never changes the OS process reference of
a handle: it only rewrites status, error and restart count. -/
theorem monitorStep_p (h : Proc) : (monitorStep h).proc.p = h.p := by
  obtain ⟨name, ar, p, st, rcount, lerr⟩ := h
  cases p with
  | none => rfl
  | some os =>
    obtain ⟨pid, poll⟩ := os
    cases poll with
    | none => rfl
    | some rc =>
      cases st <;> cases ar <;> by_cases hlt : rcount < 3 <;>
        simp [monitorStep, hlt]

/-- An OS-side exit only rewrites the poll value, never the presence of the
OS process reference. -/
theorem osExit_isSome (h : Proc) (rc : Int) : (osExit h rc).p.isSome = h.p.isSome := by
  unfold osExit
  cases h.p <;> rfl

/-- Dictionary assignment preserves the table invariant when the new handle
has an OS process reference. -/
theorem tableInv_tblSet (t : Table) (k : String) (v : Proc)
    (ht : tableInv t) (hv : v.p.isSome = true) : tableInv (tblSet t k v) := by
  intro e he
  simp only [tblSet, List.mem_cons, List.mem_filter] at he
  rcases he with rfl | ⟨hmem, _⟩
  · exact hv
  · exact ht e hmem

/-- Dictionary removal preserves the table invariant. -/
theorem tableInv_tblErase (t : Table) (k : String)
    (ht : tableInv t) : tableInv (tblErase t k) := by
  intro e he
  simp only [tblErase, List.mem_filter] at he
  exact ht e he.1

/-- `_spawn` preserves the table invariant: a key is stored only in the
success branch, with the freshly obtained OS process on the handle. -/
theorem tableInv_spawn (t : Table) (k : String) (p : Proc) (l : LaunchResult)
    (ht : tableInv t) : tableInv (spawn t k p l).table := by
  unfold spawn
  by_cases hg : ((tblGet t k).elim false procLive) = true
  · simp only [hg, if_true]
    exact ht
  · simp only [hg, if_false, Bool.false_eq_true]
    cases l with
    | ok os => exact tableInv_tblSet t k _ ht rfl
    | fileNotFound m => exact ht
    | otherError m => exact ht

/-- `_terminate` preserves the table invariant: it only removes entries. -/
theorem tableInv_terminate (t : Table) (k : String) (et : Option Nat)
    (ht : tableInv t) : tableInv (terminate t k et).table := by
  unfold terminate
  split
  · exact ht
  · split
    · exact ht
    · split
      · exact tableInv_tblErase t k ht
      · exact tableInv_tblErase t k ht

/-- A monitor tick preserves the table invariant. -/
theorem tableInv_monitorTickTable (t : Table)
    (ht : tableInv t) : tableInv (monitorTickTable t) := by
  intro e he
  simp only [monitorTickTable, List.mem_map] at he
  obtain ⟨a, ha, rfl⟩ := he
  simpa [monitorStep_p] using ht a ha

/-- An OS-side exit preserves the table invariant. -/
theorem tableInv_osExitTable (t : Table) (k : String) (rc : Int)
    (ht : tableInv t) : tableInv (osExitTable t k rc) := by
  intro e he
  simp only [osExitTable, List.mem_map] at he
  obtain ⟨a, ha, rfl⟩ := he
  by_cases hk : (a.1 == k) = true
  · simpa [hk, osExit_isSome] using ht a ha
  · simp only [Bool.not_eq_true] at hk
    simpa [hk] using ht a ha

/-- `_restart_proc` preserves the table invariant: it either does nothing or
goes through `_spawn`. -/
theorem tableInv_restartProc (t : Table) (k : String) (l : LaunchResult)
    (ht : tableInv t) : tableInv (restartProc t k l) := by
  unfold restartProc
  cases hk : tblGet t k with
  | none => exact ht
  | some h =>
    by_cases h1 : (k == "daphne") = true
    · simp only [h1, if_true]; exact tableInv_spawn t k _ l ht
    · simp only [h1, if_false, Bool.false_eq_true]
      by_cases h2 : (k == "celery_beat") = true
      · simp only [h2, if_true]; exact tableInv_spawn t k _ l ht
      · simp only [h2, if_false, Bool.false_eq_true]
        by_cases h3 : (k == "celery_worker") = true
        · simp only [h3, if_true]; exact tableInv_spawn t k _ l ht
        · simp only [h3, if_false, Bool.false_eq_true]
          by_cases h4 : (k == "frontend") = true
          · simp only [h4, if_true]; exact tableInv_spawn t k _ l ht
          · simp only [h4, if_false, Bool.false_eq_true]; exact ht

/-- Every reachable table satisfies the tracked-handle invariant. -/
theorem reachable_tableInv (t : Table) (ht : Reachable t) : tableInv t := by
  induction ht with
  | init => intro e he; cases he
  | spawnStep t k p l _ ih => exact tableInv_spawn t k p l ih
  | terminateStep t k et _ ih => exact tableInv_terminate t k et ih
  | tickStep t _ ih => exact tableInv_monitorTickTable t ih
  | osStep t k rc _ ih => exact tableInv_osExitTable t k rc ih
  | restartStep t k l _ ih => exact tableInv_restartProc t k l ih

/-- Looking up a key in the table it was just erased from yields nothing. -/
theorem tblGet_tblErase (t : Table) (k : String) : tblGet (tblErase t k) k = none := by
  induction t with
  | nil => rfl
  | cons e rest ih =>
    obtain ⟨a, b⟩ := e
    by_cases hak : a = k
    · subst hak
      simpa [tblErase, List.filter_cons] using ih
    · have h1 : ((a, b).1 == k) = false := beq_eq_false_iff_ne.mpr hak
      have h2 : (k == a) = false := beq_eq_false_iff_ne.mpr (Ne.symm hak)
      simp only [tblErase, List.filter_cons, h1, Bool.not_false, if_true]
      show tblGet ((a, b) :: tblErase rest k) k = none
      simp only [tblGet, h2, Bool.false_eq_true, if_false]
      exact ih

/-- The `_terminate` wait loop executes at most as many sleeps as its
iteration budget. -/
theorem termLoop_sleeps_le (fuel : Nat) : ∀ (i : Nat) (et : Option Nat),
    (termLoop fuel i et).1 ≤ fuel := by
  induction fuel with
  | zero => intro i et; simp [termLoop]
  | succ n ih =>
    intro i et
    unfold termLoop
    by_cases hx : exitedAt et i = true
    · simp [hx]
    · simp only [Bool.not_eq_true] at hx
      simpa [hx] using Nat.succ_le_succ (ih (i + 1) et)

/-- Against a process that never exits, the wait loop runs its full budget
of sleeps and ends one check past it. -/
theorem termLoop_none (fuel : Nat) : ∀ i : Nat,
    termLoop fuel i none = (fuel, i + fuel) := by
  induction fuel with
  | zero => intro i; simp [termLoop]
  | succ n ih =>
    intro i
    unfold termLoop
    simp only [exitedAt, Bool.false_eq_true, if_false, ih (i + 1)]
    refine Prod.ext rfl ?_
    simp
    omega

/-- Claim C1 (refuted — the code defeats its own cap): a daphne service with
auto-restart that exits immediately after every start is respawned on the
1st, 2nd, 3rd AND 4th crash, because each automatic restart goes through
`start_daphne`, which constructs a fresh `Proc` whose restart count is 0;
the count the monitor compares against 3 is therefore reset by every
automatic restart, and no Failed terminal state is ever reached. -/
theorem c1_restart_cap_violated :
    c1Cycle1.2 = true ∧ c1Cycle2.2 = true ∧ c1Cycle3.2 = true ∧ c1Cycle4.2 = true ∧
    (tblGet c1Cycle1.1 "daphne").map Proc.restartCount = some 0 ∧
    (tblGet c1Cycle3.1 "daphne").map Proc.restartCount = some 0 := by
  exact ⟨rfl, rfl, rfl, rfl, rfl, rfl⟩

/-- Claim C2 counterexample: redis is started before migrate in the
pipeline, yet the stop sequence terminates redis before migrate, so the
shutdown is not the strict reverse of the startup stage order. -/
theorem c2_counterexample :
    List.indexOf "redis_docker" startAllOrder < List.indexOf "migrate" startAllOrder ∧
    ¬ List.indexOf "migrate" stopAllOrder < List.indexOf "redis_docker" stopAllOrder := by
  decide

/-- Claim C2 (amended): for every pair of stages A started before B, the
stop sequence terminates B strictly before A — except for the single pair
(redis, migrate), where redis is terminated before migrate. -/
theorem c2_stop_reverses_start :
    ∀ a ∈ startAllOrder, ∀ b ∈ startAllOrder,
      List.indexOf a startAllOrder < List.indexOf b startAllOrder →
      ¬(a = "redis_docker" ∧ b = "migrate") →
      List.indexOf b stopAllOrder < List.indexOf a stopAllOrder := by
  decide

/-- Witness for C2's amended theorem at the daphne/frontend pair. -/
theorem c2_stop_reverses_start_witness :
    List.indexOf "frontend" stopAllOrder < List.indexOf "daphne" stopAllOrder :=
  c2_stop_reverses_start "daphne" (by decide) "frontend" (by decide) (by decide) (by decide)

/-- Claim C3 counterexample: a launch failure that is not a
`FileNotFoundError` (for example a `PermissionError` from a non-executable
file) is not caught by `_spawn`: the exception propagates to the caller and
the handle is left in Starting, not Failed. -/
theorem c3_counterexample :
    (spawn [] "daphne" mkDaphneProc (LaunchResult.otherError "PermissionError")).raised =
      some "PermissionError" ∧
    (spawn [] "daphne" mkDaphneProc (LaunchResult.otherError "PermissionError")).handle.status ≠
      ProcessStatus.failed := by
  decide

/-- Claim C3 (amended): when the idempotence guard does not fire, a launch
failing with `FileNotFoundError` is captured on the handle — status becomes
Failed, the error message is recorded — and `_spawn` returns normally; any
other launch exception propagates to the caller. -/
theorem c3_launch_failure_captured (t : Table) (key : String) (proc : Proc) (m : String)
    (hguard : (tblGet t key).elim false procLive = false) :
    (spawn t key proc (LaunchResult.fileNotFound m)).raised = none ∧
    (spawn t key proc (LaunchResult.fileNotFound m)).handle.status = ProcessStatus.failed ∧
    (spawn t key proc (LaunchResult.fileNotFound m)).handle.lastError = some m ∧
    (∀ m2, (spawn t key proc (LaunchResult.otherError m2)).raised = some m2) := by
  unfold spawn
  simp [hguard]

/-- Witness for C3's amended theorem: a daphne spawn on an empty table whose
launch raises `FileNotFoundError`. -/
theorem c3_launch_failure_captured_witness :
    (spawn [] "daphne" mkDaphneProc (LaunchResult.fileNotFound "daphne missing")).raised = none ∧
    (spawn [] "daphne" mkDaphneProc
        (LaunchResult.fileNotFound "daphne missing")).handle.status = ProcessStatus.failed ∧
    (spawn [] "daphne" mkDaphneProc
        (LaunchResult.fileNotFound "daphne missing")).handle.lastError = some "daphne missing" ∧
    (∀ m2, (spawn [] "daphne" mkDaphneProc (LaunchResult.otherError m2)).raised = some m2) :=
  c3_launch_failure_captured [] "daphne" mkDaphneProc "daphne missing" (by rfl)

/-- Claim C5 (confirmed): while the tracked handle for a key holds a live OS
process, a second `_spawn` for that key is a no-op — the table is untouched
(so exactly the one live OS process remains), no launch happens, the passed
handle is not mutated, nothing is raised, and the single log line is the
"already running" notice. -/
theorem c5_spawn_idempotent (t : Table) (key : String) (h : Proc) (proc2 : Proc)
    (launch : LaunchResult) (htracked : tblGet t key = some h) (hlive : procLive h = true) :
    spawn t key proc2 launch =
      { table := t
        handle := proc2
        logs := [proc2.name ++ " already running."]
        launched := false
        raised := none } := by
  unfold spawn
  rw [htracked]
  simp [Option.elim, hlive]

/-- Witness for C5 at a table tracking a live daphne process. -/
theorem c5_spawn_idempotent_witness :
    spawn [("daphne", runningDaphne)] "daphne" mkDaphneProc
        (LaunchResult.ok { pid := 9, poll := none }) =
      { table := [("daphne", runningDaphne)]
        handle := mkDaphneProc
        logs := [mkDaphneProc.name ++ " already running."]
        launched := false
        raised := none } :=
  c5_spawn_idempotent [("daphne", runningDaphne)] "daphne" runningDaphne mkDaphneProc
    (LaunchResult.ok { pid := 9, poll := none }) (by rfl) (by rfl)

/-- Claim C9 counterexample: an informational HTTP response with status 100
has a status code under 500, yet `_http_ok` reports the target as not
reachable — the code additionally requires the status to be at least 200. -/
theorem c9_counterexample :
    http_ok (some 100) = false ∧ (100 : Nat) < 500 := by
  decide

/-- Claim C9 (amended): the HTTP reachability predicate reports a target as
reachable exactly when a response is obtained whose status code lies in
[200, 500) — so redirects (3xx) and client errors (4xx) count as reachable,
informational statuses below 200 do not, and any connection failure or
exception counts as not reachable. -/
theorem c9_http_ok_iff (resp : Option Nat) :
    http_ok resp = true ↔ ∃ s, resp = some s ∧ 200 ≤ s ∧ s < 500 := by
  cases resp with
  | none => simp [http_ok]
  | some s => simp [http_ok]

/-- Claim C4 counterexample: on a tick tracking a crashed daphne and a live
frontend, an exception raised while handling daphne (e.g. in its crash
notification callback) leaves the frontend unchecked — the loop body has no
per-service exception isolation. -/
theorem c4_counterexample :
    (monitorTickGo [("daphne", crashedDaphne), ("frontend", runningFrontend)]
        (fun k => k == "daphne")).2.1 = ["daphne"] ∧
    "frontend" ∉ (monitorTickGo [("daphne", crashedDaphne), ("frontend", runningFrontend)]
        (fun k => k == "daphne")).2.1 := by
  decide

/-- Claim C4 (amended): a failure raised while processing one tracked
service aborts the rest of that tick: exactly the services before the
failing one, plus the failing one itself, are checked; every service after
it is skipped. -/
theorem c4_tick_aborts_on_failure (pre post : List (String × Proc)) (k : String) (h : Proc)
    (raises : String → Bool) (hpre : ∀ e ∈ pre, raises e.1 = false)
    (hk : raises k = true) :
    (monitorTickGo (pre ++ (k, h) :: post) raises).2.1 = pre.map Prod.fst ++ [k] := by
  induction pre with
  | nil => simp [monitorTickGo, hk]
  | cons e rest ih =>
    obtain ⟨ke, pe⟩ := e
    have he : raises ke = false := hpre (ke, pe) (by simp)
    have hrest : ∀ x ∈ rest, raises x.1 = false := fun x hx => hpre x (by simp [hx])
    have hih := ih hrest
    simp only [List.cons_append, monitorTickGo, he, Bool.false_eq_true, if_false,
      List.map_cons, List.append_eq] at hih ⊢
    rw [hih]

/-- Witness for C4's amended theorem: the crash of the second service aborts
nothing before it, so both services are checked when only the last raises. -/
theorem c4_tick_aborts_on_failure_witness :
    (monitorTickGo ([("daphne", crashedDaphne)] ++ ("frontend", runningFrontend) :: [])
        (fun k => k == "frontend")).2.1 =
      [("daphne", crashedDaphne)].map Prod.fst ++ ["frontend"] :=
  c4_tick_aborts_on_failure [("daphne", crashedDaphne)] [] "frontend" runningFrontend
    (fun k => k == "frontend") (by decide) (by rfl)

/-- Claim C6 (confirmed): for every tracked key whose handle carries an OS
process reference (which the table invariant guarantees for all tracked
handles), after `_terminate` the key is absent from the table and the status
last written to the handle is Stopped. -/
theorem c6_post_terminate (t : Table) (key : String) (h : Proc) (et : Option Nat)
    (htracked : tblGet t key = some h) (hp : h.p.isSome = true) :
    tblGet (terminate t key et).table key = none ∧
    (terminate t key et).finalStatus = some ProcessStatus.stopped := by
  obtain ⟨os, hos⟩ := Option.isSome_iff_exists.mp hp
  unfold terminate
  simp only [htracked, hos]
  by_cases h0 : exitedAt et 0 = true
  · simp [h0, tblGet_tblErase]
  · simp [h0, tblGet_tblErase]

/-- Witness for C6: terminating a tracked live daphne process that exits on
the first poll check. -/
theorem c6_post_terminate_witness :
    tblGet (terminate [("daphne", runningDaphne)] "daphne" (some 0)).table "daphne" = none ∧
    (terminate [("daphne", runningDaphne)] "daphne" (some 0)).finalStatus =
      some ProcessStatus.stopped :=
  c6_post_terminate [("daphne", runningDaphne)] "daphne" runningDaphne (some 0)
    (by rfl) (by rfl)

/-- Claim C7 (confirmed): `_terminate` never waits indefinitely — at most 20
sleeps of 0.2 seconds each (4 seconds total) are executed in every run; and
for a tracked handle with an OS process that never exits on its own, the
graceful signal is sent, the full 20-sleep budget is used, and the forced
kill is issued. -/
theorem c7_terminate_bounded (t : Table) (key : String) (h : Proc) (et : Option Nat)
    (htracked : tblGet t key = some h) :
    (terminate t key et).sleeps ≤ 20 ∧
    (et = none → h.p.isSome = true →
      (terminate t key et).signaled = true ∧
      (terminate t key et).sleeps = 20 ∧
      (terminate t key et).killed = true) := by
  constructor
  · unfold terminate
    simp only [htracked]
    cases hp : h.p with
    | none => simp
    | some os =>
      simp only [hp]
      by_cases h0 : exitedAt et 0 = true
      · simp [h0]
      · simp only [h0, Bool.false_eq_true, if_false]
        exact termLoop_sleeps_le 20 1 et
  · rintro rfl hp
    obtain ⟨os, hos⟩ := Option.isSome_iff_exists.mp hp
    unfold terminate
    simp only [htracked, hos]
    simp [exitedAt, termLoop_none]

/-- Witness for C7: terminating a tracked live daphne process that ignores
the graceful signal forever. -/
theorem c7_terminate_bounded_witness :
    (terminate [("daphne", runningDaphne)] "daphne" none).sleeps ≤ 20 ∧
    (terminate [("daphne", runningDaphne)] "daphne" none).signaled = true ∧
    (terminate [("daphne", runningDaphne)] "daphne" none).sleeps = 20 ∧
    (terminate [("daphne", runningDaphne)] "daphne" none).killed = true := by
  have h := c7_terminate_bounded [("daphne", runningDaphne)] "daphne" runningDaphne none
    (by rfl)
  exact ⟨h.1, h.2 rfl rfl⟩

/-- Claim C8 (confirmed): `_prompt_kill_pids` sends stop/kill signals only
when a root window was available and the confirmation dialog returned an
explicit yes; whenever no UI root is available the conflict is logged and no
pid is signalled (a dialog exception, a "no" answer, or headless mode all
yield the empty kill list). -/
theorem c8_no_kill_without_consent (env : PromptEnv) (pids : List (Nat × String × String)) :
    ((promptKillPids env pids).killedPids ≠ [] →
      env.rootAvailable = true ∧ env.dialogAnswer = some true) ∧
    (env.rootAvailable = false →
      (promptKillPids env pids).killedPids = [] ∧
      (pids ≠ [] → (promptKillPids env pids).conflictLogged = true)) := by
  obtain ⟨root, ans⟩ := env
  unfold promptKillPids
  by_cases hemp : pids.isEmpty = true
  · have hnil : pids = [] := by simpa [List.isEmpty_iff] using hemp
    subst hnil
    simp
  · cases root with
    | false => simp [hemp]
    | true =>
      cases ans with
      | none => simp [hemp]
      | some b =>
        cases b with
        | false => simp [hemp]
        | true => simp [hemp]

/-- Witness for C8: a headless run over one conflicting pid logs the
conflict and kills nothing. -/
theorem c8_no_kill_without_consent_witness :
    (promptKillPids { rootAvailable := false, dialogAnswer := none }
        [(42, "node", "npm run dev")]).killedPids = [] ∧
    (promptKillPids { rootAvailable := false, dialogAnswer := none }
        [(42, "node", "npm run dev")]).conflictLogged = true := by
  have h := c8_no_kill_without_consent { rootAvailable := false, dialogAnswer := none }
    [(42, "node", "npm run dev")]
  exact ⟨(h.2 rfl).1, (h.2 rfl).2 (by decide)⟩

/-- Claim C10 (confirmed): in every reachable supervisor state, all tracked
handles carry a non-null OS process reference (keys are inserted only after
a successful launch); a spawn that fails at launch with `FileNotFoundError`
leaves the tracked table unchanged, so the Failed handle is never tracked
and the health monitor never observes it; and `_terminate` on an untracked
key is a no-op on the table. -/
theorem c10_tracked_handles_have_process (t : Table) (ht : Reachable t) :
    tableInv t ∧
    (∀ k p m, (spawn t k p (LaunchResult.fileNotFound m)).table = t) ∧
    (∀ k et, tblGet t k = none → (terminate t k et).table = t) := by
  refine ⟨reachable_tableInv t ht, ?_, ?_⟩
  · intro k p m
    unfold spawn
    by_cases hg : ((tblGet t k).elim false procLive) = true
    · simp [hg]
    · simp [hg]
  · intro k et hk
    unfold terminate
    rw [hk]

/-- Witness for C10 at the reachable table produced by one successful daphne
spawn. -/
theorem c10_tracked_handles_have_process_witness :
    tableInv daphneAfterStart ∧
    (∀ k p m, (spawn daphneAfterStart k p (LaunchResult.fileNotFound m)).table =
      daphneAfterStart) ∧
    (∀ k et, tblGet daphneAfterStart k = none →
      (terminate daphneAfterStart k et).table = daphneAfterStart) :=
  c10_tracked_handles_have_process daphneAfterStart
    (Reachable.spawnStep [] "daphne" mkDaphneProc
      (LaunchResult.ok { pid := 1, poll := none }) Reachable.init)

end LaunchPad
